import Mathlib

/-!
Formalisation of the row layout and form-assembly logic of
`passport_panel_form.cpp` (Telegram Desktop, Passport panel form).

The style metrics (`st::passportRowPadding`, `st::passportRowSkip`,
`st::passportRowIconSkip`, the two icon widths) come from style sheets
outside this file, so they are parameters of the layout computation.
The text-shaping collaborator (`Text::countHeight`) is likewise a
parameter `ch : String → Int → Int` mapping (text, available width)
to wrapped height.
-/

namespace Passport

/-- Style metrics consumed from the style sheet (`st::passportRow...`). -/
structure Style where
  padLeft : Int
  padRight : Int
  padTop : Int
  padBottom : Int
  rowSkip : Int
  iconSkip : Int
  readyIconWidth : Int
  emptyIconWidth : Int
deriving Repr, DecidableEq

/-- The mutable state of a `PanelForm::Row` widget: its two texts, the two
cached wrapped heights, the ready flag, and the widget geometry that the
base class stores after `resizeToWidth`. -/
structure RowState where
  title : String
  description : String
  titleHeight : Int
  descriptionHeight : Int
  ready : Bool
  width : Int
  height : Int
deriving Repr, DecidableEq

/-- `PanelForm::Row::Row(parent, title, description)`: fresh row with the
two texts, zeroed cached heights and `_ready = false`. -/
def mkRow (title description : String) : RowState :=
  { title := title
    description := description
    titleHeight := 0
    descriptionHeight := 0
    ready := false
    width := 0
    height := 0 }

/-- `PanelForm::Row::countAvailableWidth(int newWidth)`. -/
def countAvailableWidth (s : Style) (st : RowState) (newWidth : Int) : Int :=
  newWidth
    - s.padLeft
    - s.padRight
    - (if st.ready then s.readyIconWidth else s.emptyIconWidth)
    - s.iconSkip

/-- `PanelForm::Row::resizeGetHeight(int newWidth)`: recomputes the two
cached heights at the available width and returns the total row height. -/
def resizeGetHeight (s : Style) (ch : String → Int → Int)
    (st : RowState) (newWidth : Int) : RowState × Int :=
  let availableWidth := countAvailableWidth s st newWidth
  let titleHeight := ch st.title availableWidth
  let descriptionHeight := ch st.description availableWidth
  let result := s.padTop
    + titleHeight
    + s.rowSkip
    + descriptionHeight
    + s.padBottom
  ({ st with titleHeight := titleHeight, descriptionHeight := descriptionHeight },
    result)

/-- The toolkit's `resizeToWidth(newWidth)`: calls `resizeGetHeight` and
stores the new width and the returned height on the widget. -/
def resizeToWidth (s : Style) (ch : String → Int → Int)
    (st : RowState) (newWidth : Int) : RowState :=
  let r := resizeGetHeight s ch st newWidth
  { r.1 with width := newWidth, height := r.2 }

/-- The two side effects `setReady` triggers: `resizeToWidth(width())`
(a re-layout pass) and `update()` (a repaint request). -/
inductive RowEffect where
  | relayout
  | repaint
deriving Repr, DecidableEq

/-- `PanelForm::Row::setReady(bool ready)`: sets `_ready`, re-runs layout
at the current width, and requests a repaint. -/
def setReady (s : Style) (ch : String → Int → Int)
    (st : RowState) (ready : Bool) : RowState × List RowEffect :=
  let st1 := { st with ready := ready }
  let st2 := resizeToWidth s ch st1 st1.width
  (st2, [RowEffect.relayout, RowEffect.repaint])

/-- One tuple delivered by the controller's `fillRows` callback. -/
structure RowTuple where
  title : String
  description : String
  ready : Bool
deriving Repr, DecidableEq

/-- A row created by `setupContent`, together with the index value that
the click handler captured by value at creation time. -/
structure BuiltRow where
  row : RowState
  clickIndex : Nat
deriving Repr, DecidableEq

/-- A call forwarded to the external controller. -/
inductive ControllerCall where
  | editScope (index : Nat)
  | submitForm
deriving Repr, DecidableEq

/-- The localized texts used by the fixed labels of the form, kept
abstract: only which language key is used and which arguments it
receives matter here. -/
inductive LabelText where
  | request1 (botName : String)
  | request2
  | header
  | allow (botMention : String)
  | acceptAllow (linkIndex : Nat) (policyBotName : String) (botMention : String)
deriving Repr, DecidableEq

/-- The policy `FlatLabel`: its rich text and the optional link installed
by `setLink(1, UrlClickHandler(policyUrl))`. -/
structure PolicyLabel where
  text : LabelText
  link : Option (Nat × String)
deriving Repr, DecidableEq

/-- Builds the policy label exactly as `setupContent` does: the text
branches on `policyUrl.isEmpty()`, and the link is installed afterwards
only when the url is non-empty. -/
def buildPolicyLabel (policyUrl botUsername botName : String) : PolicyLabel :=
  let label : PolicyLabel :=
    { text :=
        if policyUrl.isEmpty then
          LabelText.allow ("@" ++ botUsername)
        else
          LabelText.acceptAllow 1 botName ("@" ++ botUsername)
      link := none }
  if policyUrl.isEmpty then label
  else { label with link := some (1, policyUrl) }

/-- The controller collaborator, reduced to the data it supplies to this
component: the bot identity, the `fillRows` tuples in callback order, and
the privacy-policy url. -/
structure PanelController where
  botName : String
  botUsername : String
  rowTuples : List RowTuple
  privacyPolicyUrl : String
deriving Repr, DecidableEq

/-- The row-building loop of `setupContent`: one `Row` per callback
invocation, in call order; the click handler captures the current value
of `index` before it is incremented, and `setReady(ready)` runs on the
fresh row. -/
def buildRowsFrom (s : Style) (ch : String → Int → Int) (index : Nat) :
    List RowTuple → List BuiltRow
  | [] => []
  | t :: ts =>
      let row0 := mkRow t.title t.description
      let row1 := (setReady s ch row0 t.ready).1
      { row := row1, clickIndex := index } :: buildRowsFrom s ch (index + 1) ts

/-- The content assembled by `PanelForm::setupContent`: the fixed labels,
the rows in order, and the policy label. -/
structure Content where
  about1 : LabelText
  about2 : LabelText
  headerLabel : LabelText
  rows : List BuiltRow
  policy : PolicyLabel
deriving Repr, DecidableEq

/-- `PanelForm::setupContent`. -/
def setupContent (s : Style) (ch : String → Int → Int)
    (c : PanelController) : Content :=
  { about1 := LabelText.request1 c.botName
    about2 := LabelText.request2
    headerLabel := LabelText.header
    rows := buildRowsFrom s ch 0 c.rowTuples
    policy := buildPolicyLabel c.privacyPolicyUrl c.botUsername c.botName }

/-- The whole panel after `setupControls`: the assembled content plus the
click handler wired onto the submit button. -/
structure PanelFormState where
  content : Content
  submitHandler : ControllerCall
deriving Repr, DecidableEq

/-- `PanelForm::setupControls`: assembles the content and wires the
submit button to `controller->submitForm()`. -/
def setupControls (s : Style) (ch : String → Int → Int)
    (c : PanelController) : PanelFormState :=
  { content := setupContent s ch c
    submitHandler := ControllerCall.submitForm }

/-- Clicking the row at position `i` of the built row list: the handler
fires `editScope` with the index it captured at creation time. -/
def clickRow (rows : List BuiltRow) (i : Nat) : Option ControllerCall :=
  (rows.get? i).map (fun r => ControllerCall.editScope r.clickIndex)

/-- The cached heights stored on a row match the wrapped heights of its
texts at the available width determined by its current ready flag and
current width — exactly what `paintEvent` assumes when it draws with
`_titleHeight`, `_descriptionHeight` and `countAvailableWidth()`. -/
def cachedHeightsValid (s : Style) (ch : String → Int → Int)
    (st : RowState) : Prop :=
  st.titleHeight = ch st.title (countAvailableWidth s st st.width) ∧
  st.descriptionHeight = ch st.description (countAvailableWidth s st st.width)

/- Concrete sample data used by the witness theorems. -/

/-- A concrete style with symmetric icon widths. -/
def sampleStyle : Style :=
  { padLeft := 22
    padRight := 22
    padTop := 9
    padBottom := 11
    rowSkip := 2
    iconSkip := 20
    readyIconWidth := 20
    emptyIconWidth := 20 }

/-- A concrete text-shaping function: wrapped height is non-negative. -/
def sampleCh : String → Int → Int := fun _ _ => 20

/-- A concrete controller supplying two categories. -/
def sampleController : PanelController :=
  { botName := "Sample Bot"
    botUsername := "samplebot"
    rowTuples :=
      [ { title := "Identity", description := "Passport", ready := true }
      , { title := "Address", description := "Utility bill", ready := false } ]
    privacyPolicyUrl := "" }

/- Shared helper lemmas. -/

/-- The row the building loop produces for tuple `t` at running index
`index`: a fresh row, `setReady(t.ready)` applied, handler index
captured. -/
def builtFor (s : Style) (ch : String → Int → Int)
    (t : RowTuple) (index : Nat) : BuiltRow :=
  { row := (setReady s ch (mkRow t.title t.description) t.ready).1
    clickIndex := index }

/-- Each element of the built row list records the tuple at its position
and the running index at its creation. -/
theorem buildRowsFrom_get? (s : Style) (ch : String → Int → Int) :
    ∀ (ts : List RowTuple) (index i : Nat),
      (buildRowsFrom s ch index ts).get? i =
        (ts.get? i).map (fun t => builtFor s ch t (index + i)) := by
  intro ts
  induction ts with
  | nil => intro index i; simp [buildRowsFrom]
  | cons t ts ih =>
      intro index i
      cases i with
      | zero => simp [buildRowsFrom, builtFor]
      | succ j =>
          simp only [buildRowsFrom, List.get?]
          rw [ih (index + 1) j]
          cases ts.get? j <;>
            simp [builtFor, Nat.add_comm, Nat.add_assoc, Nat.add_left_comm]

/-- The row-building loop creates exactly one row per tuple. -/
theorem buildRowsFrom_length (s : Style) (ch : String → Int → Int) :
    ∀ (ts : List RowTuple) (index : Nat),
      (buildRowsFrom s ch index ts).length = ts.length := by
  intro ts
  induction ts with
  | nil => intro index; simp [buildRowsFrom]
  | cons t ts ih => intro index; simp [buildRowsFrom, ih]

/-- C1: for every row and width, `resizeGetHeight(newWidth)` returns
top padding + title wrapped height + inter-line gap + description wrapped
height + bottom padding, where both heights are measured at the available
width newWidth − left padding − right padding − width of the icon chosen
by the current ready flag − icon-to-text gap. -/
theorem resizeGetHeight_formula (s : Style) (ch : String → Int → Int)
    (st : RowState) (newWidth : Int) :
    (resizeGetHeight s ch st newWidth).2 =
      s.padTop
        + ch st.title (newWidth - s.padLeft - s.padRight
            - (if st.ready then s.readyIconWidth else s.emptyIconWidth)
            - s.iconSkip)
        + s.rowSkip
        + ch st.description (newWidth - s.padLeft - s.padRight
            - (if st.ready then s.readyIconWidth else s.emptyIconWidth)
            - s.iconSkip)
        + s.padBottom := by
  rfl

/-- C2: the row created for the i-th `fillRows` callback invocation
carries the click handler captured at creation with index i, so clicking
it invokes `editScope(i)`; the result depends only on that row's own
entry, not on any other row. -/
theorem click_row_edits_scope (s : Style) (ch : String → Int → Int)
    (c : PanelController) (i : Nat)
    (h : i < (setupContent s ch c).rows.length) :
    clickRow (setupContent s ch c).rows i =
        some (ControllerCall.editScope i) ∧
    (∀ rows2 : List BuiltRow,
      rows2.get? i = ((setupContent s ch c).rows).get? i →
      clickRow rows2 i = some (ControllerCall.editScope i)) := by
  have hlen : (setupContent s ch c).rows.length = c.rowTuples.length := by
    simp [setupContent, buildRowsFrom_length]
  have hi : i < c.rowTuples.length := by rw [← hlen]; exact h
  have hget : ((setupContent s ch c).rows).get? i =
      some (builtFor s ch (c.rowTuples.get ⟨i, hi⟩) (0 + i)) := by
    show (buildRowsFrom s ch 0 c.rowTuples).get? i = _
    rw [buildRowsFrom_get? s ch c.rowTuples 0 i, List.get?_eq_get hi]
    rfl
  constructor
  · unfold clickRow
    rw [hget]
    simp [builtFor]
  · intro rows2 h2
    rw [hget] at h2
    unfold clickRow
    rw [h2]
    simp [builtFor]

/-- C2 witness: on the concrete sample controller, clicking row 1
invokes `editScope(1)`. -/
theorem click_row_edits_scope_witness :
    clickRow (setupContent sampleStyle sampleCh sampleController).rows 1 =
        some (ControllerCall.editScope 1) :=
  (click_row_edits_scope sampleStyle sampleCh sampleController 1
    (by decide)).1

/-- C3: `setupContent` creates exactly one row per `fillRows` callback
invocation, in call order; the row at position i holds the i-th tuple's
title and description and its ready flag equals the i-th tuple's ready
flag. -/
theorem rows_match_tuples (s : Style) (ch : String → Int → Int)
    (c : PanelController) :
    (setupContent s ch c).rows.length = c.rowTuples.length ∧
    ∀ i : Nat, i < c.rowTuples.length →
      ∃ r t, ((setupContent s ch c).rows).get? i = some r ∧
        c.rowTuples.get? i = some t ∧
        r.row.title = t.title ∧
        r.row.description = t.description ∧
        r.row.ready = t.ready := by
  constructor
  · simp [setupContent, buildRowsFrom_length]
  · intro i hi
    refine ⟨builtFor s ch (c.rowTuples.get ⟨i, hi⟩) (0 + i),
      c.rowTuples.get ⟨i, hi⟩, ?_, ?_, ?_, ?_, ?_⟩
    · show (buildRowsFrom s ch 0 c.rowTuples).get? i = _
      rw [buildRowsFrom_get? s ch c.rowTuples 0 i, List.get?_eq_get hi]
      rfl
    · exact List.get?_eq_get hi
    · simp [builtFor, setReady, resizeToWidth, resizeGetHeight, mkRow]
    · simp [builtFor, setReady, resizeToWidth, resizeGetHeight, mkRow]
    · simp [builtFor, setReady, resizeToWidth, resizeGetHeight, mkRow]

/-- C3 witness: the sample controller supplies two tuples, and row 0
carries the first tuple's title, description and ready flag. -/
theorem rows_match_tuples_witness :
    (setupContent sampleStyle sampleCh sampleController).rows.length =
        sampleController.rowTuples.length ∧
    ∃ r t,
      ((setupContent sampleStyle sampleCh sampleController).rows).get? 0 =
          some r ∧
      sampleController.rowTuples.get? 0 = some t ∧
      r.row.title = t.title ∧
      r.row.description = t.description ∧
      r.row.ready = t.ready :=
  ⟨(rows_match_tuples sampleStyle sampleCh sampleController).1,
    (rows_match_tuples sampleStyle sampleCh sampleController).2 0 (by decide)⟩

/-- C4: with symmetric icon widths, toggling the ready flag of a laid-out
row from false to true and back to false (each toggle re-running layout)
restores the originally computed height; and in general the height after
any `setReady(b)` is exactly the deterministic `resizeGetHeight` value at
the current width under the new flag. -/
theorem toggle_ready_restores_height (s : Style) (ch : String → Int → Int)
    (st : RowState) (w : Int)
    (hsym : s.readyIconWidth = s.emptyIconWidth) :
    ((setReady s ch
        ((setReady s ch (resizeToWidth s ch { st with ready := false } w)
          true).1)
        false).1).height =
      (resizeToWidth s ch { st with ready := false } w).height ∧
    (∀ b : Bool,
      ((setReady s ch (resizeToWidth s ch { st with ready := false } w)
          b).1).height =
        (resizeGetHeight s ch
          { resizeToWidth s ch { st with ready := false } w with ready := b }
          w).2) := by
  constructor
  · simp [setReady, resizeToWidth, resizeGetHeight, countAvailableWidth]
  · intro b
    simp [setReady, resizeToWidth, resizeGetHeight, countAvailableWidth]

/-- C4 witness: with the concrete symmetric style, toggling a concrete
row false→true→false at width 300 restores the original height. -/
theorem toggle_ready_restores_height_witness :
    sampleStyle.readyIconWidth = sampleStyle.emptyIconWidth ∧
    ((setReady sampleStyle sampleCh
        ((setReady sampleStyle sampleCh
          (resizeToWidth sampleStyle sampleCh
            { mkRow "Identity" "Passport" with ready := false } 300)
          true).1)
        false).1).height =
      (resizeToWidth sampleStyle sampleCh
        { mkRow "Identity" "Passport" with ready := false } 300).height :=
  ⟨by decide,
    (toggle_ready_restores_height sampleStyle sampleCh
      (mkRow "Identity" "Passport") 300 (by decide)).1⟩

/-- C5: `setReady(b)` sets the ready flag to b and unconditionally
triggers exactly a re-layout and a repaint — even when b equals the
current flag — and a second `setReady(b)` leaves the row state (flag and
cached heights included) unchanged. -/
theorem setReady_sets_relayouts_idempotent (s : Style)
    (ch : String → Int → Int) (st : RowState) (b : Bool) :
    ((setReady s ch st b).1).ready = b ∧
    (setReady s ch st b).2 = [RowEffect.relayout, RowEffect.repaint] ∧
    setReady s ch ((setReady s ch st b).1) b =
      ((setReady s ch st b).1, [RowEffect.relayout, RowEffect.repaint]) := by
  refine ⟨rfl, rfl, ?_⟩
  simp [setReady, resizeToWidth, resizeGetHeight, countAvailableWidth]

/-- C6: `resizeGetHeight` is a pure function of (newWidth, ready flag,
title, description) — two rows agreeing on those agree on the returned
height — and its only state change is to the two cached heights: title,
description, ready flag, width and height are untouched. -/
theorem resizeGetHeight_pure_frame (s : Style) (ch : String → Int → Int)
    (st1 st2 : RowState) (w : Int)
    (ht : st1.title = st2.title)
    (hd : st1.description = st2.description)
    (hr : st1.ready = st2.ready) :
    (resizeGetHeight s ch st1 w).2 = (resizeGetHeight s ch st2 w).2 ∧
    (resizeGetHeight s ch st1 w).1 =
      { st1 with
        titleHeight := ch st1.title (countAvailableWidth s st1 w)
        descriptionHeight := ch st1.description (countAvailableWidth s st1 w) } := by
  constructor
  · simp [resizeGetHeight, countAvailableWidth, ht, hd, hr]
  · rfl

/-- C6 witness: two concrete rows sharing title, description and ready
flag but different cached heights get the same height from
`resizeGetHeight` at width 300, and the result only rewrites the cached
heights. -/
theorem resizeGetHeight_pure_frame_witness :
    (resizeGetHeight sampleStyle sampleCh
        (mkRow "Identity" "Passport") 300).2 =
      (resizeGetHeight sampleStyle sampleCh
        { mkRow "Identity" "Passport" with titleHeight := 7 } 300).2 ∧
    (resizeGetHeight sampleStyle sampleCh
        (mkRow "Identity" "Passport") 300).1 =
      { mkRow "Identity" "Passport" with
        titleHeight := sampleCh "Identity"
          (countAvailableWidth sampleStyle (mkRow "Identity" "Passport") 300)
        descriptionHeight := sampleCh "Passport"
          (countAvailableWidth sampleStyle (mkRow "Identity" "Passport") 300) } :=
  resizeGetHeight_pure_frame sampleStyle sampleCh
    (mkRow "Identity" "Passport")
    { mkRow "Identity" "Passport" with titleHeight := 7 } 300
    rfl rfl rfl

/-- C7: with an empty policy url the policy label shows the non-linked
allow message and installs no link; with a non-empty url it shows the
accept-allow message containing link entity 1 and installs that url as
the target of link 1. -/
theorem policy_label_branches (policyUrl botUsername botName : String) :
    (policyUrl = "" →
      buildPolicyLabel policyUrl botUsername botName =
        { text := LabelText.allow ("@" ++ botUsername), link := none }) ∧
    (policyUrl ≠ "" →
      buildPolicyLabel policyUrl botUsername botName =
        { text := LabelText.acceptAllow 1 botName ("@" ++ botUsername)
          link := some (1, policyUrl) }) := by
  constructor
  · intro h
    subst h
    rfl
  · intro h
    have hne : policyUrl.isEmpty = false := by
      rw [Bool.eq_false_iff]
      intro hcontra
      exact h ((String.isEmpty_iff policyUrl).1 hcontra)
    simp [buildPolicyLabel, hne]

/-- C7 witness: the empty url yields the non-linked allow label, a
non-empty url yields the accept-allow label linked to that url. -/
theorem policy_label_branches_witness :
    buildPolicyLabel "" "samplebot" "Sample Bot" =
      { text := LabelText.allow ("@" ++ "samplebot"), link := none } ∧
    buildPolicyLabel "https://example.com/policy" "samplebot" "Sample Bot" =
      { text := LabelText.acceptAllow 1 "Sample Bot" ("@" ++ "samplebot")
        link := some (1, "https://example.com/policy") } :=
  ⟨(policy_label_branches "" "samplebot" "Sample Bot").1 rfl,
    (policy_label_branches "https://example.com/policy" "samplebot"
      "Sample Bot").2 (by decide)⟩

/-- C8: when `fillRows` invokes the callback zero times, the panel has
zero rows while the fixed about/header labels are still created, and the
submit control still invokes `submitForm()`. -/
theorem empty_rows_still_submit (s : Style) (ch : String → Int → Int)
    (c : PanelController) (h : c.rowTuples = []) :
    (setupControls s ch c).content.rows = [] ∧
    (setupControls s ch c).content.about1 = LabelText.request1 c.botName ∧
    (setupControls s ch c).content.about2 = LabelText.request2 ∧
    (setupControls s ch c).content.headerLabel = LabelText.header ∧
    (setupControls s ch c).submitHandler = ControllerCall.submitForm := by
  refine ⟨?_, rfl, rfl, rfl, rfl⟩
  simp [setupControls, setupContent, h, buildRowsFrom]

/-- C8 witness: a concrete controller with no tuples yields zero rows,
the fixed labels, and a submit handler calling `submitForm`. -/
theorem empty_rows_still_submit_witness :
    (setupControls sampleStyle sampleCh
        { sampleController with rowTuples := [] }).content.rows = [] ∧
    (setupControls sampleStyle sampleCh
        { sampleController with rowTuples := [] }).content.about1 =
      LabelText.request1 "Sample Bot" ∧
    (setupControls sampleStyle sampleCh
        { sampleController with rowTuples := [] }).content.about2 =
      LabelText.request2 ∧
    (setupControls sampleStyle sampleCh
        { sampleController with rowTuples := [] }).content.headerLabel =
      LabelText.header ∧
    (setupControls sampleStyle sampleCh
        { sampleController with rowTuples := [] }).submitHandler =
      ControllerCall.submitForm :=
  empty_rows_still_submit sampleStyle sampleCh
    { sampleController with rowTuples := [] } rfl

/-- C9: whenever the text-shaping collaborator returns non-negative
wrapped heights, `resizeGetHeight(W)` returns at least top padding +
bottom padding + inter-line gap, for every width W. -/
theorem resize_height_lower_bound (s : Style) (ch : String → Int → Int)
    (st : RowState) (W : Int) (hch : ∀ t w, 0 ≤ ch t w) :
    s.padTop + s.padBottom + s.rowSkip ≤ (resizeGetHeight s ch st W).2 := by
  have h1 := hch st.title (countAvailableWidth s st W)
  have h2 := hch st.description (countAvailableWidth s st W)
  show s.padTop + s.padBottom + s.rowSkip ≤
    s.padTop + ch st.title (countAvailableWidth s st W) + s.rowSkip
      + ch st.description (countAvailableWidth s st W) + s.padBottom
  linarith

/-- C9 witness: with the concrete non-negative shaping function, a
concrete row resized to width 300 is at least as tall as the padding and
gap sum. -/
theorem resize_height_lower_bound_witness :
    sampleStyle.padTop + sampleStyle.padBottom + sampleStyle.rowSkip ≤
      (resizeGetHeight sampleStyle sampleCh
        (mkRow "Identity" "Passport") 300).2 :=
  resize_height_lower_bound sampleStyle sampleCh
    (mkRow "Identity" "Passport") 300 (fun t w => by simp [sampleCh])

/-- C10: after every `setReady` and after every `resizeToWidth`, the
cached title and description heights equal the wrapped heights of the
texts at the available width computed from the current ready flag and
current width, so a subsequent paint never reads heights computed under
a stale flag. -/
theorem cached_heights_never_stale (s : Style) (ch : String → Int → Int)
    (st : RowState) (b : Bool) (w : Int) :
    cachedHeightsValid s ch ((setReady s ch st b).1) ∧
    cachedHeightsValid s ch (resizeToWidth s ch st w) := by
  constructor
  · constructor <;>
      simp [cachedHeightsValid, setReady, resizeToWidth, resizeGetHeight,
        countAvailableWidth]
  · constructor <;>
      simp [cachedHeightsValid, resizeToWidth, resizeGetHeight,
        countAvailableWidth]

end Passport
